import Mathlib

/-!
# SmartWork_MVP — verification of the utilization/assignment core

Shallow embedding of the core logic of `src/app.py` (a Streamlit app built on
pandas DataFrames):

* `calculate_utilization` (app.py lines 25–38): adds the derived columns
  `Activity_Score`, `True_Utilization`, `Bench_Status` to the employee
  activity table, in place.
* the HR Head Project Assignment page (app.py lines 253–272): a nested loop
  over employees × projects emitting one record per pair with a non-empty
  skill intersection.
* the HR Head Skill Recommendations page (app.py lines 229–251): builds a
  recommendation column and then displays a column selection that includes
  `Bench_Status`.

Modelling conventions:
* pandas numeric cells become `ℚ`; a counter column that the table may lack
  is an `Option ℚ` field, so `df.get(col, 0)` becomes `Option.getD · 0`.
* pandas float division is total: `0/0` is NaN and `±x/0` is `±inf`, and any
  comparison with NaN is false.  `PVal` carries exactly these extra points;
  the pipeline never produces other float oddities from rational inputs.
* a Python `set` of strings is represented by its underlying list of distinct
  elements (`List.eraseDups` of the split); only membership and emptiness of
  these sets are stated, since the hash-dependent iteration order of a CPython
  set is not a function of the program text.
-/

set_option autoImplicit false

namespace SmartWork

/-- Value of the pandas `True_Utilization` column: a real number, NaN
(produced by `0/0` when the whole batch scores zero), or an infinity
(produced by `±x/0`).  Comparisons `< c` against NaN and `+inf` are false,
against `-inf` true — exactly numpy comparison semantics. -/
inductive PVal where
  | num (q : ℚ)
  | nan
  | posInf
  | negInf
deriving DecidableEq, Repr

/-- `x < c` for a pandas float value `x` and rational threshold `c`
(`lambda x: x<20 …` in app.py line 36). NaN compares false. -/
def PVal.ltQ : PVal → ℚ → Bool
  | PVal.num q, c => decide (q < c)
  | PVal.nan, _ => false
  | PVal.posInf, _ => false
  | PVal.negInf, _ => true

/-- One row of the uploaded Employee Activity table (raw columns only).
Counters are `Option ℚ`: `none` models an absent column, read through
`df.get(col, 0)` in app.py lines 29–32. -/
structure RawRow where
  employee : String
  dept : String
  tasks_Completed : Option ℚ
  meetings_Duration : Option ℚ
  decisions_Made : Option ℚ
  docs_Updated : Option ℚ
  skills : Option String
  cost : Option ℚ
deriving DecidableEq, Repr

/-- `0.4*Tasks_Completed + 0.3*Meetings_Duration + 0.2*Decisions_Made +
0.1*Docs_Updated`, app.py lines 28–33, with `df.get(·,0)` defaulting. -/
def RawRow.activityScore (r : RawRow) : ℚ :=
  0.4 * r.tasks_Completed.getD 0 +
  0.3 * r.meetings_Duration.getD 0 +
  0.2 * r.decisions_Made.getD 0 +
  0.1 * r.docs_Updated.getD 0

/-- A row of the activity table after `calculate_utilization` has added the
three derived columns (the raw columns are kept unchanged). -/
structure ScoredRow where
  raw : RawRow
  activity_Score : ℚ
  true_Utilization : PVal
  bench_Status : String
deriving DecidableEq, Repr

/-- `df['Activity_Score'].max()` over a non-empty table (app.py line 34);
the `[]` case is unreachable because of the `df.empty` guard on line 26. -/
def maxScore (rows : List RawRow) : ℚ :=
  match rows.map RawRow.activityScore with
  | [] => 0
  | x :: xs => xs.foldl max x

/-- `(df['Activity_Score'] / df['Activity_Score'].max()) * 100`, app.py
line 34, with pandas float-division semantics when the maximum is zero:
`0/0 = NaN`, `x/0 = ±inf` for `x ≠ 0`. -/
def trueUtil (s m : ℚ) : PVal :=
  if m = 0 then
    if s = 0 then PVal.nan
    else if 0 < s then PVal.posInf
    else PVal.negInf
  else PVal.num (s / m * 100)

/-- The classification lambda of app.py line 36:
`"On Bench" if x<20 else ("Partially Utilized" if x<50 else "Fully Utilized")`. -/
def benchStatus (u : PVal) : String :=
  if u.ltQ 20 then "On Bench"
  else if u.ltQ 50 then "Partially Utilized"
  else "Fully Utilized"

/-- `calculate_utilization` (app.py lines 25–38) on a non-empty table: the
row list with the three derived columns attached.  The `df.empty` early
return of line 26 is handled by the callers' embedding (`applyCalc`). -/
def calculate_utilization (rows : List RawRow) : List ScoredRow :=
  let m := maxScore rows
  rows.map fun r =>
    let s := r.activityScore
    let u := trueUtil s m
    ScoredRow.mk r s u (benchStatus u)

/-- The Employee Activity table as stored in `st.session_state['activity']`:
either still raw (derived columns absent) or already carrying the three
derived columns. -/
inductive StoredTable where
  | raw (rows : List RawRow)
  | scored (srows : List ScoredRow)
deriving DecidableEq, Repr

/-- `df.empty` on the stored table. -/
def StoredTable.isEmpty : StoredTable → Bool
  | StoredTable.raw rows => rows.isEmpty
  | StoredTable.scored srows => srows.isEmpty

/-- The raw columns of the stored table (the derived columns, when present,
sit alongside them and leave them unchanged). -/
def StoredTable.toRawRows : StoredTable → List RawRow
  | StoredTable.raw rows => rows
  | StoredTable.scored srows => srows.map ScoredRow.raw

/-- Effect of a `calculate_utilization(df)` call on the DataFrame object
`df` itself: the function assigns new columns on the object it receives
(app.py lines 28–35 mutate `df` in place) and returns that same object, so
after the call the caller's table carries the derived columns.  On an empty
table line 26 returns it untouched.  Re-running on an already-scored table
recomputes the derived columns from the (unchanged) raw columns. -/
def applyCalc (t : StoredTable) : StoredTable :=
  match t with
  | StoredTable.raw rows =>
      if rows.isEmpty then t else StoredTable.scored (calculate_utilization rows)
  | StoredTable.scored srows =>
      if srows.isEmpty then t
      else StoredTable.scored (calculate_utilization (srows.map ScoredRow.raw))

/-- One row of the uploaded Project Assignment table.  The assignment loop
(app.py lines 261–272) reads only `Project_Name` and `Required_Skills`;
`positions_Required` records the headcount column of the upload, which that
loop never consults. -/
structure Project where
  project_Name : String
  required_Skills : Option String
  positions_Required : Option ℚ
deriving DecidableEq, Repr

/-- Python `str.split(sep)` for a one-character separator, written as
structural recursion over the character list: every separator occurrence
cuts, empty pieces are kept (`"".split(",") == [""]`). -/
def splitAux (sep : Char) : List Char → List Char → List String
  | [], acc => [String.mk acc.reverse]
  | c :: cs, acc =>
      if c = sep then String.mk acc.reverse :: splitAux sep cs []
      else splitAux sep cs (c :: acc)

/-- `s.split(",")` in Python. -/
def pySplit (s : String) : List String :=
  splitAux ',' s.data []

/-- First-occurrence deduplication: the distinct elements of a list, which
is how a Python `set` built from it is represented here. -/
def pyDedup : List String → List String
  | [] => []
  | x :: xs => x :: (pyDedup xs).filter (fun y => y ≠ x)

/-- `set(str(s).split(","))`: the distinct results of splitting on `","`
(no trimming, no case folding), kept as a duplicate-free list standing for
the Python set. -/
def pySplitSet (s : String) : List String :=
  pyDedup (pySplit s)

/-- `set(str(emp.get('Skills','')).split(","))`, app.py line 263. -/
def RawRow.skillSet (r : RawRow) : List String :=
  pySplitSet (r.skills.getD "")

/-- `set(str(proj.get('Required_Skills','')).split(","))`, app.py line 265. -/
def Project.skillSet (p : Project) : List String :=
  pySplitSet (p.required_Skills.getD "")

/-- `emp_skills & proj_skills` as a duplicate-free list (elements of `a`
that also lie in `b`). -/
def setInter (a b : List String) : List String :=
  a.filter (fun x => b.contains x)

/-- One row appended to `assignments` in app.py lines 267–271.
`skill_Match` keeps the matched set itself; the source renders it with
`", ".join(...)` in a hash-dependent set iteration order. -/
structure Assignment where
  employee : String
  project : String
  skill_Match : List String
deriving DecidableEq, Repr

/-- The nested loop of the HR Head Project Assignment page, app.py lines
261–271: for every employee row, for every project row, emit a record when
the skill intersection is non-empty.  There is no headcount bookkeeping and
no removal of already-assigned employees. -/
def assignmentLoop (emps : List RawRow) (projs : List Project) : List Assignment :=
  emps.flatMap fun emp =>
    projs.filterMap fun proj =>
      let inter := setInter emp.skillSet proj.skillSet
      if inter.isEmpty then none
      else some (Assignment.mk emp.employee proj.project_Name inter)

/-- The HR Head Project Assignment page (app.py lines 253–272) runs the
loop over whatever is stored in `st.session_state['activity']` — raw or
already scored — reading only the raw `Employee`/`Skills` columns. -/
def hrAssignmentPage (activity : StoredTable) (projs : List Project) : List Assignment :=
  assignmentLoop activity.toRawRows projs

/-- Outcome of the HR Head Skill Recommendations page, app.py lines
229–251.  `shown` carries, per displayed row, the `Employee` and
`Bench_Status` cells of the final `st.dataframe` selection (the
`Recommended_Skills` text depends on hash-ordered `list(set(...))`
slicing, which no claim touches, so it is not tracked). -/
inductive SkillRecsResult where
  | uploadInfo
  | keyError (col : String)
  | shown (rows : List (String × String))
deriving DecidableEq, Repr

/-- The HR Head Skill Recommendations page, app.py lines 229–251: after the
emptiness guard (line 235) it builds `Recommended_Skills` and then selects
`df_emp[['Employee','Skills','Recommended_Skills','Bench_Status']]`
(line 251).  It never calls `calculate_utilization`; if the stored activity
table has no `Bench_Status` column, that selection raises a pandas
`KeyError`.  The Skill Training table `skillsTbl` is only tested for
emptiness, so only its length matters. -/
def skillRecsPage (activity : StoredTable) (skillsTbl : List Unit)
    (projs : List Project) : SkillRecsResult :=
  if activity.isEmpty || skillsTbl.isEmpty || projs.isEmpty then
    SkillRecsResult.uploadInfo
  else
    match activity with
    | StoredTable.raw _ => SkillRecsResult.keyError "Bench_Status"
    | StoredTable.scored srows =>
        SkillRecsResult.shown (srows.map fun sr => (sr.raw.employee, sr.bench_Status))

/-! ## Theorems -/

/-- C1: the claim that every true-utilization value derived by
`calculate_utilization` lies in `[0,100]` fails on the code: a batch whose
activity scores are all zero gets `0/0 = NaN` (not a number in `[0,100]`),
and a batch with negative counters (scores `-2` and `-1`) gets a
utilization of `200`.  The missing zero-denominator special case and the
missing negative clamping are the causes. -/
theorem c1_utilization_leaves_range :
    ((calculate_utilization
        [RawRow.mk "Z1" "D" (some 0) (some 0) (some 0) (some 0) (some "") none,
         RawRow.mk "Z2" "D" (some 0) (some 0) (some 0) (some 0) (some "") none]).map
        ScoredRow.true_Utilization = [PVal.nan, PVal.nan])
    ∧ ((calculate_utilization
        [RawRow.mk "N1" "D" (some (-5)) (some 0) (some 0) (some 0) (some "") none,
         RawRow.mk "N2" "D" (some (-2.5)) (some 0) (some 0) (some 0) (some "") none]).map
        ScoredRow.true_Utilization = [PVal.num 200, PVal.num 100]) := by
  norm_num [calculate_utilization, maxScore, trueUtil, RawRow.activityScore, max_def]

/-- C2: on an all-zero-activity batch the code does not special-case the
zero denominator: the single all-zero employee gets `True_Utilization =
0/0 = NaN`, and since NaN compares false the classification lambda falls
through to `"Fully Utilized"` — not utilization `0` and not `"On Bench"`
as the claim states. -/
theorem c2_zero_batch_nan_fully_utilized :
    calculate_utilization
        [RawRow.mk "Z" "D" (some 0) (some 0) (some 0) (some 0) (some "python") none]
      = [ScoredRow.mk
          (RawRow.mk "Z" "D" (some 0) (some 0) (some 0) (some 0) (some "python") none)
          0 PVal.nan "Fully Utilized"] := by
  norm_num [calculate_utilization, maxScore, trueUtil, RawRow.activityScore, benchStatus,
    PVal.ltQ]

/-- Every value of the classification lambda is one of the three bench
labels. -/
lemma benchStatus_cases (u : PVal) :
    benchStatus u = "On Bench" ∨ benchStatus u = "Partially Utilized"
      ∨ benchStatus u = "Fully Utilized" := by
  unfold benchStatus
  by_cases h1 : u.ltQ 20 = true
  · simp [h1]
  · by_cases h2 : u.ltQ 50 = true
    · simp [h1, h2]
    · simp [h1, h2]

/-- C3: bench status is a total function of true utilization with exactly
the claimed buckets: on numeric utilization `u`, `u < 20` iff "On Bench",
`20 ≤ u < 50` iff "Partially Utilized", `50 ≤ u` iff "Fully Utilized"; and
every row scored by `calculate_utilization` carries `benchStatus` of its own
utilization value and one of the three labels (no row is unclassified). -/
theorem c3_bench_classification :
    (∀ q : ℚ,
      (benchStatus (PVal.num q) = "On Bench" ↔ q < 20)
      ∧ (benchStatus (PVal.num q) = "Partially Utilized" ↔ 20 ≤ q ∧ q < 50)
      ∧ (benchStatus (PVal.num q) = "Fully Utilized" ↔ 50 ≤ q))
    ∧ (∀ (rows : List RawRow) (sr : ScoredRow), sr ∈ calculate_utilization rows →
        sr.bench_Status = benchStatus sr.true_Utilization
        ∧ (sr.bench_Status = "On Bench" ∨ sr.bench_Status = "Partially Utilized"
            ∨ sr.bench_Status = "Fully Utilized")) := by
  constructor
  · intro q
    by_cases h1 : q < 20
    · have h2 : ¬ 20 ≤ q := not_le.mpr h1
      have h3 : q < 50 := h1.trans (by norm_num)
      have h4 : ¬ 50 ≤ q := not_le.mpr h3
      simp [benchStatus, PVal.ltQ, h1, h2, h4]
    · by_cases h5 : q < 50
      · have h2 : 20 ≤ q := not_lt.mp h1
        have h4 : ¬ 50 ≤ q := not_le.mpr h5
        simp [benchStatus, PVal.ltQ, h1, h5, h2, h4]
      · have h2 : 50 ≤ q := not_lt.mp h5
        have h20 : 20 ≤ q := le_trans (by norm_num) h2
        simp [benchStatus, PVal.ltQ, h1, h5, h2, h20]
  · intro rows sr h
    unfold calculate_utilization at h
    simp only [List.mem_map] at h
    obtain ⟨r, _, rfl⟩ := h
    exact ⟨rfl, benchStatus_cases _⟩

/-- C3 witness: the top scorer of a concrete two-row batch is classified by
`benchStatus` of its own utilization value. -/
theorem c3_bench_classification_witness :
    (ScoredRow.mk (RawRow.mk "A" "D" (some 10) (some 0) (some 0) (some 0) (some "") none)
        4 (PVal.num 100) "Fully Utilized").bench_Status
      = benchStatus (ScoredRow.mk
          (RawRow.mk "A" "D" (some 10) (some 0) (some 0) (some 0) (some "") none)
          4 (PVal.num 100) "Fully Utilized").true_Utilization
    ∧ ((ScoredRow.mk (RawRow.mk "A" "D" (some 10) (some 0) (some 0) (some 0) (some "") none)
        4 (PVal.num 100) "Fully Utilized").bench_Status = "On Bench"
      ∨ (ScoredRow.mk (RawRow.mk "A" "D" (some 10) (some 0) (some 0) (some 0) (some "") none)
        4 (PVal.num 100) "Fully Utilized").bench_Status = "Partially Utilized"
      ∨ (ScoredRow.mk (RawRow.mk "A" "D" (some 10) (some 0) (some 0) (some 0) (some "") none)
        4 (PVal.num 100) "Fully Utilized").bench_Status = "Fully Utilized") :=
  c3_bench_classification.2
    [RawRow.mk "A" "D" (some 10) (some 0) (some 0) (some 0) (some "") none]
    _ (by norm_num [calculate_utilization, maxScore, trueUtil, RawRow.activityScore,
        benchStatus, PVal.ltQ])

/-- C4: `calculate_utilization` scores every row as exactly
`0.4*Tasks_Completed + 0.3*Meetings_Duration + 0.2*Decisions_Made +
0.1*Docs_Updated`, a missing counter contributing `0` (the `df.get(·,0)`
default), with the weights fixed constants. -/
theorem c4_weighted_activity_score :
    ∀ rows : List RawRow,
      (calculate_utilization rows).map ScoredRow.activity_Score
        = rows.map (fun r =>
            0.4 * r.tasks_Completed.getD 0 + 0.3 * r.meetings_Duration.getD 0
            + 0.2 * r.decisions_Made.getD 0 + 0.1 * r.docs_Updated.getD 0) := by
  intro rows
  simp [calculate_utilization, List.map_map, Function.comp, RawRow.activityScore]

/-- Scoring keeps the raw columns of every row unchanged. -/
lemma calc_raw (rows : List RawRow) :
    (calculate_utilization rows).map ScoredRow.raw = rows := by
  unfold calculate_utilization
  rw [List.map_map]
  exact List.map_id rows

/-- A `calculate_utilization` call leaves the raw columns of the stored
table as they were: only derived columns are added. -/
lemma toRawRows_applyCalc (t : StoredTable) :
    (applyCalc t).toRawRows = t.toRawRows := by
  cases t with
  | raw rows =>
      cases rows with
      | nil => rfl
      | cons a as =>
          show (calculate_utilization (a :: as)).map ScoredRow.raw = a :: as
          rw [calc_raw]
  | scored srows =>
      cases srows with
      | nil => rfl
      | cons a as =>
          show (calculate_utilization ((a :: as).map ScoredRow.raw)).map ScoredRow.raw
              = (a :: as).map ScoredRow.raw
          rw [calc_raw]

/-- Unfolding the outer loop one employee at a time. -/
lemma assignmentLoop_cons (e : RawRow) (es : List RawRow) (projs : List Project) :
    assignmentLoop (e :: es) projs
      = (projs.filterMap fun proj =>
          let inter := setInter e.skillSet proj.skillSet
          if inter.isEmpty then none
          else some (Assignment.mk e.employee proj.project_Name inter))
        ++ assignmentLoop es projs := rfl

/-- C5 counterexample: one employee `E` knowing `python` and two projects
both requiring `python` give two assignment records, both naming `E` — an
employee is not removed from the pool after the first assignment. -/
theorem c5_employee_assigned_twice :
    (assignmentLoop
        [RawRow.mk "E" "D" none none none none (some "python") none]
        [Project.mk "P1" (some "python") (some 1),
         Project.mk "P2" (some "python,go") (some 2)]).map Assignment.employee
      = ["E", "E"] := by
  decide

/-- C5 amended: the loop emits exactly one record per (employee, project)
pair with non-empty skill intersection; nothing restricts an employee to a
single record. -/
theorem c5_record_per_overlapping_pair :
    ∀ (emps : List RawRow) (projs : List Project) (a : Assignment),
      a ∈ assignmentLoop emps projs ↔
        ∃ e ∈ emps, ∃ p ∈ projs,
          (setInter e.skillSet p.skillSet).isEmpty = false
          ∧ a = Assignment.mk e.employee p.project_Name
              (setInter e.skillSet p.skillSet) := by
  intro emps projs a
  simp only [assignmentLoop, List.mem_flatMap, List.mem_filterMap]
  constructor
  · rintro ⟨e, he, p, hp, hsome⟩
    cases h : (setInter e.skillSet p.skillSet).isEmpty with
    | true => simp [h] at hsome
    | false =>
        refine ⟨e, he, p, hp, h, ?_⟩
        simp [h] at hsome
        exact hsome.symm
  · rintro ⟨e, he, p, hp, hne, rfl⟩
    exact ⟨e, he, p, hp, by simp [hne]⟩

/-- C6 counterexample: a project requiring one position (`positions_Required
= 1`) but matching two employees receives two assignment records. -/
theorem c6_headcount_exceeded :
    (Project.mk "P" (some "python") (some 1)).positions_Required = some 1
    ∧ (assignmentLoop
        [RawRow.mk "E1" "D" none none none none (some "python") none,
         RawRow.mk "E2" "D" none none none none (some "python") none]
        [Project.mk "P" (some "python") (some 1)]).length = 2 := by
  decide

/-- C6 amended: the loop never reads the headcount column — replacing every
project's `positions_Required` changes nothing — and a project receives one
record for every employee with overlapping skills, however many there are. -/
theorem c6_headcount_ignored :
    ∀ (emps : List RawRow) (projs : List Project) (q : Option ℚ),
      (assignmentLoop emps
          (projs.map fun p => Project.mk p.project_Name p.required_Skills q)
        = assignmentLoop emps projs)
      ∧ ∀ p : Project,
          (assignmentLoop emps [p]).length
            = (emps.filter fun e => !(setInter e.skillSet p.skillSet).isEmpty).length := by
  intro emps projs q
  constructor
  · simp only [assignmentLoop, List.filterMap_map]
    rfl
  · intro p
    induction emps with
    | nil => rfl
    | cons e es ih =>
        rw [assignmentLoop_cons, List.length_append, List.filter_cons, ih]
        cases h : (setInter e.skillSet p.skillSet).isEmpty with
        | true =>
            have hEq : setInter e.skillSet p.skillSet = [] := by simpa using h
            simp [h, hEq]
        | false =>
            have hEq : setInter e.skillSet p.skillSet ≠ [] := by simpa using h
            simp [h, hEq, Nat.add_comm]

/-- C7 counterexample: after scoring, employee `A` is at utilization 100
and `"Fully Utilized"` (well above the default threshold 50), yet the
assignment page still assigns `A` to project `P1` — there is no
eligibility filtering at all. -/
theorem c7_fully_utilized_still_assigned :
    ((calculate_utilization
        [RawRow.mk "A" "D" (some 10) (some 0) (some 0) (some 0) (some "python,sql") none,
         RawRow.mk "B" "D" (some 0) (some 0) (some 0) (some 0) (some "java") none]).map
        (fun sr => (sr.raw.employee, sr.true_Utilization, sr.bench_Status))
      = [("A", PVal.num 100, "Fully Utilized"), ("B", PVal.num 0, "On Bench")])
    ∧ ((hrAssignmentPage
        (applyCalc (StoredTable.raw
          [RawRow.mk "A" "D" (some 10) (some 0) (some 0) (some 0) (some "python,sql") none,
           RawRow.mk "B" "D" (some 0) (some 0) (some 0) (some 0) (some "java") none]))
        [Project.mk "P1" (some "python") (some 1)]).map Assignment.employee
      = ["A"]) := by
  constructor
  · norm_num [calculate_utilization, maxScore, trueUtil, RawRow.activityScore, benchStatus,
      PVal.ltQ, max_def]
  · show (assignmentLoop (StoredTable.toRawRows (applyCalc _)) _).map _ = _
    rw [toRawRows_applyCalc]
    decide

/-- C7 amended: the assignment page takes every employee of the stored
activity table as a candidate: its output never depends on utilization or
bench status (scoring the table first changes nothing), and no threshold
appears anywhere in the loop. -/
theorem c7_no_eligibility_filter :
    ∀ (t : StoredTable) (projs : List Project),
      hrAssignmentPage (applyCalc t) projs = hrAssignmentPage t projs := by
  intro t projs
  unfold hrAssignmentPage
  rw [toRawRows_applyCalc]

/-- C9 counterexample: `calculate_utilization` assigns new columns on the
DataFrame it receives, so after the HR-dashboard call of app.py line 216
the caller's session-stored table is no longer the table it held before
the call. -/
theorem c9_call_mutates_input :
    applyCalc (StoredTable.raw
        [RawRow.mk "A" "D" (some 10) (some 0) (some 0) (some 0) (some "python,sql") none])
      ≠ StoredTable.raw
        [RawRow.mk "A" "D" (some 10) (some 0) (some 0) (some 0) (some "python,sql") none] := by
  simp [applyCalc]

/-- C9 amended: the scoring call is stateless and idempotent — its result
is a function of the input table alone, re-running it reproduces the same
table — and its in-place mutation only attaches derived columns, leaving
every raw column unchanged; but it is not mutation-free. -/
theorem c9_stateless_idempotent_in_place :
    ∀ t : StoredTable,
      applyCalc (applyCalc t) = applyCalc t
      ∧ (applyCalc t).toRawRows = t.toRawRows := by
  intro t
  refine ⟨?_, toRawRows_applyCalc t⟩
  cases t with
  | raw rows =>
      cases rows with
      | nil => rfl
      | cons a as =>
          show StoredTable.scored
              (calculate_utilization ((calculate_utilization (a :: as)).map ScoredRow.raw))
            = StoredTable.scored (calculate_utilization (a :: as))
          rw [calc_raw]
  | scored srows =>
      cases srows with
      | nil => rfl
      | cons a as =>
          show StoredTable.scored
              (calculate_utilization
                ((calculate_utilization ((a :: as).map ScoredRow.raw)).map ScoredRow.raw))
            = StoredTable.scored (calculate_utilization ((a :: as).map ScoredRow.raw))
          rw [calc_raw]

/-- C10: the Skill Recommendations page reads `Bench_Status` straight from
the stored activity table and never runs the utilization engine: on a
stored table still lacking the derived columns (fresh upload) it fails
with the pandas missing-column `KeyError` for `Bench_Status` instead of
producing recommendations, and on an already-scored table it displays the
stored `Bench_Status` values as they are. -/
theorem c10_bench_status_read_not_computed :
    ∀ (rows : List RawRow) (srows : List ScoredRow) (sk : List Unit)
      (projs : List Project),
      (rows ≠ [] → sk ≠ [] → projs ≠ [] →
        skillRecsPage (StoredTable.raw rows) sk projs
          = SkillRecsResult.keyError "Bench_Status")
      ∧ (srows ≠ [] → sk ≠ [] → projs ≠ [] →
        skillRecsPage (StoredTable.scored srows) sk projs
          = SkillRecsResult.shown
              (srows.map fun sr => (sr.raw.employee, sr.bench_Status))) := by
  intro rows srows sk projs
  constructor
  · intro h1 h2 h3
    simp [skillRecsPage, StoredTable.isEmpty, List.isEmpty_iff, h1, h2, h3]
  · intro h1 h2 h3
    simp [skillRecsPage, StoredTable.isEmpty, List.isEmpty_iff, h1, h2, h3]

/-- C10 witness: on a concrete one-row fresh table the page yields the
`Bench_Status` KeyError; on the concrete scored version it shows the
stored status. -/
theorem c10_bench_status_read_not_computed_witness :
    skillRecsPage
        (StoredTable.raw
          [RawRow.mk "Z" "D" (some 0) (some 0) (some 0) (some 0) (some "python") none])
        [()] [Project.mk "P1" (some "python") (some 1)]
      = SkillRecsResult.keyError "Bench_Status"
    ∧ skillRecsPage
        (StoredTable.scored
          [ScoredRow.mk
            (RawRow.mk "Z" "D" (some 0) (some 0) (some 0) (some 0) (some "python") none)
            0 PVal.nan "Fully Utilized"])
        [()] [Project.mk "P1" (some "python") (some 1)]
      = SkillRecsResult.shown [("Z", "Fully Utilized")] := by
  have h := c10_bench_status_read_not_computed
    [RawRow.mk "Z" "D" (some 0) (some 0) (some 0) (some 0) (some "python") none]
    [ScoredRow.mk
      (RawRow.mk "Z" "D" (some 0) (some 0) (some 0) (some 0) (some "python") none)
      0 PVal.nan "Fully Utilized"]
    [()] [Project.mk "P1" (some "python") (some 1)]
  exact ⟨h.1 (by simp) (by simp) (by simp), h.2 (by simp) (by simp) (by simp)⟩

end SmartWork
